import Mathlib

/-!
Verification development for the study-plan generator service (`src/app.py`).

The Python source is shallowly embedded: Python `str` values become `String`
(ASCII-faithful; `str.strip`, `str.lower`, `str.split('\n')`, `str.startswith`
are re-implemented below over `List Char`), Python `int` becomes `Int`
(`//` is floor division, `Int.fdiv`), JSON values become the inductive
`JsonVal`, and Python code that can raise becomes `Except String`
(the `String` being the exception message, as `str(e)` renders it).
The in-memory plan store (a Python dict) becomes an insertion-ordered
association list with overwrite-on-existing-key assignment.
-/

/-- Python whitespace as used by `str.strip()` (ASCII range). -/
def isPyWs (c : Char) : Bool :=
  c = ' ' || c = '\t' || c = '\n' || c = '\r' || c = '\x0b' || c = '\x0c'

/-- `str.strip()` on the character list: drop leading and trailing whitespace. -/
def pyStripList (l : List Char) : List Char :=
  ((l.dropWhile isPyWs).reverse.dropWhile isPyWs).reverse

/-- `str.strip()` at the `String` level. -/
def pyStrip (s : String) : String :=
  String.mk (pyStripList s.data)

/-- The backtick character (U+0060). -/
def btick : Char := Char.ofNat 96

/-- `line.startswith('```')` on a character list. -/
def startsWithTicks (l : List Char) : Bool :=
  List.isPrefixOf [btick, btick, btick] l

/-- `text.split('\n')` on a character list (Python semantics: the empty
string splits to one empty group, `n` separators give `n+1` groups). -/
def splitOnNl : List Char → List (List Char)
  | [] => [[]]
  | x :: xs =>
    match splitOnNl xs with
    | [] => [[]]
    | g :: gs => if x = '\n' then [] :: g :: gs else (x :: g) :: gs

/-- `'\n'.join(...)` on character lists. -/
def joinNl : List (List Char) → List Char
  | [] => []
  | [l] => l
  | l :: l2 :: ls => l ++ '\n' :: joinNl (l2 :: ls)

/-- The fence-scanning loop of `extract_json_from_response` (src/app.py
lines 131-138): enumerate the lines; the first line whose stripped form
starts with three backticks sets `start_idx = i + 1`; the next such line
sets `end_idx = i` and breaks. -/
def fenceScan : List (List Char) → Nat → Option Nat → Option Nat × Option Nat
  | [], _, s => (s, none)
  | l :: rest, i, s =>
    if startsWithTicks (pyStripList l) then
      match s with
      | none => fenceScan rest (i + 1) (some (i + 1))
      | some si => (some si, some i)
    else fenceScan rest (i + 1) s

/-- The de-fencing part of `extract_json_from_response` (src/app.py lines
123-141): strip the text; if it starts with a triple-backtick fence, scan
the lines for the fence pair, and — guarded by Python truthiness of both
indices (`if start_idx and end_idx`) — replace the text with the stripped
join of the lines strictly between them; otherwise keep the stripped text. -/
def defenceList (text : List Char) : List Char :=
  let t := pyStripList text
  if startsWithTicks t then
    match fenceScan (splitOnNl t) 0 none with
    | (some si, some ei) =>
      if si != 0 && ei != 0 then
        pyStripList (joinNl (((splitOnNl t).drop si).take (ei - si)))
      else t
    | _ => t
  else t

/-- JSON values as produced by `json.loads` (numbers restricted to
integers; the source and the claims only exercise integral numerals). -/
inductive JsonVal where
  | null : JsonVal
  | bool : Bool → JsonVal
  | num : Int → JsonVal
  | str : String → JsonVal
  | arr : List JsonVal → JsonVal
  | obj : List (String × JsonVal) → JsonVal

/-- JSON structural whitespace accepted by the parser. -/
def isJsonWs (c : Char) : Bool :=
  c = ' ' || c = '\t' || c = '\n' || c = '\r'

/-- Skip JSON structural whitespace. -/
def skipWs (cs : List Char) : List Char := cs.dropWhile isJsonWs

/-- Parse the body of a JSON string literal, after the opening quote,
returning the decoded characters and the rest after the closing quote.
Models the strict mode of `json.loads`: raw control characters are
rejected; `\uXXXX` escapes are not modelled (unused by the source and
the claims). -/
def parseStrChars : List Char → Option (List Char × List Char)
  | [] => none
  | c :: rest =>
    if c = '"' then some ([], rest)
    else if c = '\\' then
      match rest with
      | [] => none
      | e :: rest2 =>
        let dec : Option Char :=
          if e = '"' then some '"'
          else if e = '\\' then some '\\'
          else if e = '/' then some '/'
          else if e = 'n' then some '\n'
          else if e = 't' then some '\t'
          else if e = 'r' then some '\r'
          else if e = 'b' then some (Char.ofNat 8)
          else if e = 'f' then some (Char.ofNat 12)
          else none
        match dec with
        | some d => (parseStrChars rest2).map (fun p => (d :: p.1, p.2))
        | none => none
    else if c.toNat < 32 then none
    else (parseStrChars rest).map (fun p => (c :: p.1, p.2))

/-- Numeric value of a list of decimal digit characters. -/
def digitsVal (ds : List Char) : Nat :=
  ds.foldl (fun a c => a * 10 + (c.toNat - 48)) 0

mutual

/-- Fuel-indexed recursive-descent JSON value parser (models `json.loads`
on the fragment the source exercises). -/
def parseVal : Nat → List Char → Option (JsonVal × List Char)
  | 0, _ => none
  | fuel + 1, cs =>
    match skipWs cs with
    | [] => none
    | c :: rest =>
      if c = '{' then
        match skipWs rest with
        | '}' :: r2 => some (.obj [], r2)
        | _ =>
          match parseObjItems fuel rest with
          | some (kvs, r2) => some (.obj kvs, r2)
          | none => none
      else if c = '[' then
        match skipWs rest with
        | ']' :: r2 => some (.arr [], r2)
        | _ =>
          match parseArrItems fuel rest with
          | some (xs, r2) => some (.arr xs, r2)
          | none => none
      else if c = '"' then
        match parseStrChars rest with
        | some (s, r2) => some (.str (String.mk s), r2)
        | none => none
      else if c = 't' then
        match rest with
        | 'r' :: 'u' :: 'e' :: r2 => some (.bool true, r2)
        | _ => none
      else if c = 'f' then
        match rest with
        | 'a' :: 'l' :: 's' :: 'e' :: r2 => some (.bool false, r2)
        | _ => none
      else if c = 'n' then
        match rest with
        | 'u' :: 'l' :: 'l' :: r2 => some (.null, r2)
        | _ => none
      else if c = '-' then
        let ds := rest.takeWhile Char.isDigit
        if ds.isEmpty then none
        else some (.num (-(digitsVal ds : Int)), rest.dropWhile Char.isDigit)
      else if c.isDigit then
        let ds := (c :: rest).takeWhile Char.isDigit
        some (.num (digitsVal ds : Int), (c :: rest).dropWhile Char.isDigit)
      else none

/-- Parse one or more comma-separated array items up to `]`. -/
def parseArrItems : Nat → List Char → Option (List JsonVal × List Char)
  | 0, _ => none
  | fuel + 1, cs =>
    match parseVal fuel cs with
    | some (v, r1) =>
      match skipWs r1 with
      | ',' :: r2 =>
        match parseArrItems fuel r2 with
        | some (xs, r3) => some (v :: xs, r3)
        | none => none
      | ']' :: r2 => some ([v], r2)
      | _ => none
    | none => none

/-- Parse one or more comma-separated `"key": value` pairs up to `}`. -/
def parseObjItems : Nat → List Char → Option (List (String × JsonVal) × List Char)
  | 0, _ => none
  | fuel + 1, cs =>
    match skipWs cs with
    | '"' :: rest =>
      match parseStrChars rest with
      | some (k, r1) =>
        match skipWs r1 with
        | ':' :: r2 =>
          match parseVal fuel r2 with
          | some (v, r3) =>
            match skipWs r3 with
            | ',' :: r4 =>
              match parseObjItems fuel r4 with
              | some (kvs, r5) => some ((String.mk k, v) :: kvs, r5)
              | none => none
            | '}' :: r4 => some ([(String.mk k, v)], r4)
            | _ => none
          | none => none
        | _ => none
      | none => none
    | _ => none

end

/-- `json.loads`: parse a complete JSON document, requiring only trailing
whitespace after the value. -/
def json_loads (s : String) : Option JsonVal :=
  match parseVal (s.data.length + 1) s.data with
  | some (v, rest) => if (skipWs rest).isEmpty then some v else none
  | none => none

/-- The extractor's sentinel error value (src/app.py line 150). -/
def errSentinel : JsonVal :=
  .obj [("error", .str "Failed to parse JSON response")]

/-- `extract_json_from_response` (src/app.py lines 121-150): strip and
best-effort de-fence the text, then `json.loads` it; the `try/except`
around the parse degrades any parse failure to the sentinel value. -/
def extract_json_from_response (text : String) : JsonVal :=
  match json_loads (String.mk (defenceList text.data)) with
  | some v => v
  | none => errSentinel

/-- Decimal digit character for `d`, via lookup in the digit alphabet. -/
def dChar (d : Nat) : Char := "0123456789".data.getD d '0'

/-- Lower-case hexadecimal digit character for `d`. -/
def hChar (d : Nat) : Char := "0123456789abcdef".data.getD d '0'

/-- Decimal digit characters of a natural number (fuel-indexed). -/
def natToCharsAux : Nat → Nat → List Char
  | 0, _ => []
  | f + 1, n => if n < 10 then [dChar n] else natToCharsAux f (n / 10) ++ [dChar (n % 10)]

/-- Decimal rendering of a natural number, as `str(n)` produces it. -/
def natToChars (n : Nat) : List Char := natToCharsAux (n + 1) n

/-- Decimal rendering of an integer, as `str(n)` produces it. -/
def intToChars : Int → List Char
  | .ofNat n => natToChars n
  | .negSucc m => '-' :: natToChars (m + 1)

/-- `str(n)` for a Python int. -/
def pyStr (n : Int) : String := String.mk (intToChars n)

/-- JSON escaping of one character, as `json.dumps` emits it
(control characters below 0x20 become `\u00XX`). -/
def escChar (c : Char) : List Char :=
  if c = '"' then ['\\', '"']
  else if c = '\\' then ['\\', '\\']
  else if c = '\n' then ['\\', 'n']
  else if c = '\r' then ['\\', 'r']
  else if c = '\t' then ['\\', 't']
  else if c.toNat < 32 then
    ['\\', 'u', '0', '0', hChar (c.toNat / 16), hChar (c.toNat % 16)]
  else [c]

/-- JSON escaping of a string body. -/
def escStrChars : List Char → List Char
  | [] => []
  | c :: cs => escChar c ++ escStrChars cs

mutual

/-- `json.dumps` with its default separators `", "` and `": "`,
at the character-list level. -/
def dumpsChars : JsonVal → List Char
  | .null => "null".data
  | .bool b => if b then "true".data else "false".data
  | .num n => intToChars n
  | .str s => '"' :: escStrChars s.data ++ ['"']
  | .arr xs => '[' :: dumpsArrInner xs ++ [']']
  | .obj kvs => '{' :: dumpsObjInner kvs ++ ['}']

/-- Comma-joined array elements for `dumpsChars`. -/
def dumpsArrInner : List JsonVal → List Char
  | [] => []
  | [x] => dumpsChars x
  | x :: y :: xs => dumpsChars x ++ ',' :: ' ' :: dumpsArrInner (y :: xs)

/-- Comma-joined `"key": value` pairs for `dumpsChars`. -/
def dumpsObjInner : List (String × JsonVal) → List Char
  | [] => []
  | [kv] => '"' :: escStrChars kv.1.data ++ '"' :: ':' :: ' ' :: dumpsChars kv.2
  | kv :: kv2 :: kvs =>
      ('"' :: escStrChars kv.1.data ++ '"' :: ':' :: ' ' :: dumpsChars kv.2)
        ++ ',' :: ' ' :: dumpsObjInner (kv2 :: kvs)

end

/-- `json.dumps` at the `String` level. -/
def json_dumps (v : JsonVal) : String := String.mk (dumpsChars v)

/-- Python substring membership `needle in hay` on character lists:
some suffix of the haystack starts with the needle. -/
def listContainsAux (needle : List Char) : List Char → Bool
  | [] => List.isPrefixOf needle []
  | c :: rest => List.isPrefixOf needle (c :: rest) || listContainsAux needle rest

/-- Python `needle in hay` at the `String` level. -/
def strContains (hay needle : String) : Bool := listContainsAux needle.data hay.data

/-- Python `str.lower()` (ASCII-faithful). -/
def pyLower (s : String) : String := String.mk (s.data.map Char.toLower)

/-- Result shape of the Preference Classifier (always well-formed). -/
structure LearningAnalysis where
  primary_learning_style : String
  recommended_study_methods : List String
  personalized_tips : String
deriving DecidableEq, Repr

/-- The hardcoded `methods` table of `analyze_learning_preferences_local`
(src/app.py lines 86-91), as the lookup `methods.get(primary, methods["reading-writing"])`. -/
def methodsFor (primary : String) : List String :=
  if primary = "visual" then ["video lectures", "diagrams", "mind maps", "flashcards"]
  else if primary = "auditory" then ["podcasts", "audio books", "group discussions", "lectures"]
  else if primary = "kinesthetic" then ["hands-on practice", "labs", "projects", "simulations"]
  else ["textbooks", "note-taking", "written summaries", "articles"]

/-- `analyze_learning_preferences_local` (src/app.py lines 74-97): the
Preference Classifier. -/
def analyze_learning_preferences_local (prefs_text : String) : LearningAnalysis :=
  let prefs_lower := pyLower prefs_text
  let primary :=
    if strContains prefs_lower "visual" then "visual"
    else if strContains prefs_lower "audio" || strContains prefs_lower "auditory" then "auditory"
    else if strContains prefs_lower "kinesthetic" || strContains prefs_lower "hands" then "kinesthetic"
    else "reading-writing"
  { primary_learning_style := primary
    recommended_study_methods := methodsFor primary
    personalized_tips :=
      "Use 45-90 minute focused sessions with breaks. Apply active recall and spaced repetition." }

/-- One review checkpoint of the Checkpoint Scheduler. -/
structure Checkpoint where
  day : Int
  checkpoint : String
  assessment : String
deriving DecidableEq, Repr

/-- Result shape of the Checkpoint Scheduler. -/
structure ProgressTracking where
  checkpoint_schedule : List Checkpoint
  tracking_metrics : List String
deriving DecidableEq, Repr

/-- `generate_progress_tracking_local` (src/app.py lines 99-119): the
Checkpoint Scheduler. Python `//` is floor division (`Int.fdiv`);
`range(1, 5)` is `[1, 2, 3, 4]`. -/
def generate_progress_tracking_local (duration_days : Int) : ProgressTracking :=
  let interval := max 7 (Int.fdiv duration_days 4)
  { checkpoint_schedule :=
      (List.range' 1 4).map (fun i =>
        { day := min duration_days ((i : Int) * interval)
          checkpoint := "Review Week " ++ pyStr (i : Int)
          assessment := "Quiz + practical exercise" })
    tracking_metrics :=
      ["Daily session completion", "Topic understanding scores", "Practice problem accuracy"] }

/-- `value.get(key, default)` on a Python value: succeeds with dict
semantics (last duplicate key wins, insertion order kept) on a dict,
raises `AttributeError` on any non-dict (as `.get` does in Python). -/
def pyDictGet : JsonVal → String → JsonVal → Except String JsonVal
  | .obj kvs, k, dflt =>
      .ok ((((kvs.reverse).find? (fun p => p.1 == k)).map Prod.snd).getD dflt)
  | _, _, _ => .error "AttributeError: object has no attribute get"

/-- `value[:n]` on a Python value: list and string slicing succeed,
anything else raises `TypeError`. -/
def pySliceTake (n : Nat) : JsonVal → Except String JsonVal
  | .arr xs => .ok (.arr (xs.take n))
  | .str s => .ok (.str (String.mk (s.data.take n)))
  | _ => .error "TypeError: object is not subscriptable"

/-- `for s in value`: iterating a list yields its elements, a string its
characters, a dict its keys; anything else raises `TypeError`. -/
def pyIterate : JsonVal → Except String (List JsonVal)
  | .arr xs => .ok xs
  | .str s => .ok (s.data.map (fun c => .str (String.mk [c])))
  | .obj kvs => .ok (kvs.map (fun p => .str p.1))
  | _ => .error "TypeError: object is not iterable"

/-- `value[key]` for a string key: dict lookup (raising `KeyError` when
absent), `TypeError` on non-dicts. -/
def pySubscriptStr (v : JsonVal) (k : String) : Except String JsonVal :=
  match v with
  | .obj kvs =>
      match ((kvs.reverse).find? (fun p => p.1 == k)).map Prod.snd with
      | some x => .ok x
      | none => .error ("KeyError: " ++ k)
  | _ => .error "TypeError: object is not subscriptable"

/-- `sep.join(xs)` on Python values: every element must be a string,
otherwise `TypeError`. -/
def pyJoin (sep : String) (xs : List JsonVal) : Except String String :=
  match xs.mapM (fun v => match v with
      | .str s => Except.ok s
      | _ => Except.error "TypeError: sequence item is not a str") with
  | .ok ss => .ok (String.intercalate sep ss)
  | .error e => .error e

/-- `s[:n]` character truncation of a Python string. -/
def pyTakeChars (n : Nat) (s : String) : String := String.mk (s.data.take n)

/-- The Generation Client (external collaborator): one `Crew.kickoff`
per step, returning the raw text output (already passed through `str`)
or raising. Each function receives exactly the data the source embeds
into that step's fixed instruction template: step 2 the first 2000
characters of the syllabus text; step 3 the duration, the
`json.dumps` of the first two subjects, and the learning style; step 4
the comma-joined topic names and the learning style. -/
structure GenClient where
  analyzeSyllabus : String → Except String String
  buildSchedule : Int → String → String → Except String String
  recommendResources : String → String → Except String String

/-- The plan record assembled by the orchestrator (src/app.py lines
261-269). -/
structure PlanRecord where
  created_at : String
  duration_days : Int
  syllabus_analysis : JsonVal
  learning_analysis : LearningAnalysis
  schedule : JsonVal
  resources : JsonVal
  progress_tracking : ProgressTracking

/-- `create_study_plan` (src/app.py lines 156-275): the Plan
Orchestrator. The `try/except` re-raises every exception, so the body is
a straight `Except` pipeline; `created_at` stands for the
`datetime.now().isoformat()` call at record assembly. -/
def create_study_plan (gen : GenClient) (syllabus_text learning_preferences : String)
    (study_duration_days : Int) (created_at : String) : Except String PlanRecord :=
  let learning_analysis := analyze_learning_preferences_local learning_preferences
  match gen.analyzeSyllabus (pyTakeChars 2000 syllabus_text) with
  | .error e => .error e
  | .ok syllabus_raw =>
    let syllabus_analysis := extract_json_from_response syllabus_raw
    match pyDictGet syllabus_analysis "subjects" (.arr []) with
    | .error e => .error e
    | .ok subjects =>
      match pySliceTake 2 subjects with
      | .error e => .error e
      | .ok subjects2 =>
        match gen.buildSchedule study_duration_days (json_dumps subjects2)
            learning_analysis.primary_learning_style with
        | .error e => .error e
        | .ok schedule_raw =>
          let schedule := extract_json_from_response schedule_raw
          match pyDictGet syllabus_analysis "subjects" (.arr []) with
          | .error e => .error e
          | .ok subjectsAgain =>
            match pySliceTake 3 subjectsAgain with
            | .error e => .error e
            | .ok subjects3 =>
              match pyIterate subjects3 with
              | .error e => .error e
              | .ok selems =>
                match selems.mapM (fun s => pySubscriptStr s "name") with
                | .error e => .error e
                | .ok topics =>
                  match pyJoin ", " topics with
                  | .error e => .error e
                  | .ok topicsStr =>
                    match gen.recommendResources topicsStr
                        learning_analysis.primary_learning_style with
                    | .error e => .error e
                    | .ok resources_raw =>
                      let resources := extract_json_from_response resources_raw
                      let progress_system := generate_progress_tracking_local study_duration_days
                      .ok { created_at := created_at
                            duration_days := study_duration_days
                            syllabus_analysis := syllabus_analysis
                            learning_analysis := learning_analysis
                            schedule := schedule
                            resources := resources
                            progress_tracking := progress_system }

/-- `int(x)` on a request-body value: ints pass through, booleans coerce,
strings are parsed as optionally signed decimal literals with surrounding
whitespace allowed (`ValueError` otherwise; CPython additionally quotes
the offending literal in the message, elided here), anything else raises
`TypeError`. -/
def pyInt : JsonVal → Except String Int
  | .num n => .ok n
  | .bool b => .ok (if b then 1 else 0)
  | .str s =>
    let t := pyStripList s.data
    let core : Option Int :=
      match t with
      | '-' :: ds => if !ds.isEmpty && ds.all Char.isDigit then some (-(digitsVal ds : Int)) else none
      | '+' :: ds => if !ds.isEmpty && ds.all Char.isDigit then some (digitsVal ds : Int) else none
      | ds => if !ds.isEmpty && ds.all Char.isDigit then some (digitsVal ds : Int) else none
    match core with
    | some n => .ok n
    | none => .error ("invalid literal for int() with base 10: " ++ s)
  | .null => .error "TypeError: int() argument must not be None"
  | .arr _ => .error "TypeError: int() argument must be a string or a number"
  | .obj _ => .error "TypeError: int() argument must be a string or a number"

/-- The request body fields read by `generate_plan` (the two text fields,
when present, are assumed to be strings — `data.get(..., '')` followed by
`.strip()`). -/
structure ReqData where
  syllabus_text : Option String
  learning_preferences : Option String
  study_duration_days : Option JsonVal

/-- An HTTP response: status code and JSON body. -/
structure HttpResp where
  status : Nat
  body : JsonVal

/-- The in-memory Plan Store `study_plans` (a Python dict): an
insertion-ordered association list. -/
abbrev Store : Type := List (String × PlanRecord)

/-- `study_plans[plan_id] = plan`: dict assignment — overwrite in place
when the key exists, append otherwise. -/
def storeSet (store : Store) (k : String) (v : PlanRecord) : Store :=
  if (List.any store (fun p => p.1 == k)) then
    List.map (fun p => if p.1 == k then (k, v) else p) store
  else store ++ [(k, v)]

/-- `jsonify({'error': ...})`. -/
def errBody (msg : String) : JsonVal := .obj [("error", .str msg)]

/-- The success payload of `generate_plan` (src/app.py lines 376-386). -/
def successBody (plan_id : String) (plan : PlanRecord) (teh : JsonVal) : JsonVal :=
  .obj [("success", .bool true),
        ("plan_id", .str plan_id),
        ("message", .str "Study plan generated successfully"),
        ("summary", .obj
          [("created_at", .str plan.created_at),
           ("duration_days", .num plan.duration_days),
           ("total_estimated_hours", teh),
           ("primary_learning_style", .str plan.learning_analysis.primary_learning_style)])]

/-- `generate_plan` (src/app.py lines 341-392): the
`POST /api/generate-plan` handler. `created_at` models the
`datetime.now().isoformat()` taken inside `create_study_plan`, and `ts`
the `int(datetime.now().timestamp())` (seconds granularity) used for the
plan identifier; both are inputs because the clock is external. The
whole body sits in one `try/except` that turns any exception into a
status-500 `{'error': str(e)}` response; note that `int(...)` runs
before the two validation checks, and that the store assignment happens
before the summary is built. Returns the store after the request and
the HTTP response. -/
def generate_plan (store : Store) (data : ReqData) (gen : GenClient)
    (created_at : String) (ts : Int) : Store × HttpResp :=
  let syllabus_text := pyStrip (data.syllabus_text.getD "")
  let learning_prefs := pyStrip (data.learning_preferences.getD "")
  match pyInt (data.study_duration_days.getD (.num 30)) with
  | .error e => (store, ⟨500, errBody e⟩)
  | .ok duration =>
    if syllabus_text = "" then (store, ⟨400, errBody "Syllabus text is required"⟩)
    else if learning_prefs = "" then (store, ⟨400, errBody "Learning preferences are required"⟩)
    else
      match create_study_plan gen syllabus_text learning_prefs duration created_at with
      | .error e => (store, ⟨500, errBody e⟩)
      | .ok plan =>
        let plan_id := "plan_" ++ pyStr ts
        let store2 := storeSet store plan_id plan
        match pyDictGet plan.syllabus_analysis "total_estimated_hours" (.str "N/A") with
        | .error e => (store2, ⟨500, errBody e⟩)
        | .ok teh => (store2, ⟨200, successBody plan_id plan teh⟩)

/-- A fixed Generation Client whose three calls all return the
unparseable text `"x"`. -/
def genConst : GenClient := ⟨fun _ => .ok "x", fun _ _ _ => .ok "x", fun _ _ => .ok "x"⟩

/-- A fixed request body with non-empty text fields and no duration. -/
def reqSP : ReqData := ⟨some "S", some "P", none⟩

/-! ## Supporting lemmas -/

theorem parseVal_btick (fuel : Nat) (cs : List Char) :
    parseVal fuel (btick :: cs) = none := by
  cases fuel with
  | zero => rfl
  | succ f => rfl

theorem json_loads_btick (cs : List Char) :
    json_loads (String.mk (btick :: cs)) = none := by
  unfold json_loads
  rw [show (String.mk (btick :: cs)).data = btick :: cs from rfl, parseVal_btick]

theorem startsWithTicks_head {l : List Char} (h : startsWithTicks l = true) :
    ∃ l', l = btick :: l' := by
  cases l with
  | nil => simp [startsWithTicks, List.isPrefixOf] at h
  | cons c l'' =>
    refine ⟨l'', ?_⟩
    simp only [startsWithTicks, List.isPrefixOf, Bool.and_eq_true, beq_iff_eq] at h
    rw [h.1]

theorem listContainsAux_iff (n h : List Char) : listContainsAux n h = true ↔ n <:+: h := by
  induction h with
  | nil =>
    simp [listContainsAux, List.isPrefixOf_iff_prefix]
  | cons c rest ih =>
    simp [listContainsAux, List.isPrefixOf_iff_prefix, ih, List.infix_cons_iff]

theorem strContains_of_infix {hay needle : String} (h : needle.data <:+: hay.data) :
    strContains hay needle = true :=
  (listContainsAux_iff needle.data hay.data).mpr h

theorem methodsFor_length (p : String) : (methodsFor p).length = 4 := by
  unfold methodsFor
  split_ifs <;> rfl

theorem dChar_ne_nl (d : Nat) : dChar d ≠ '\n' := by
  unfold dChar
  rw [show ∀ (l : List Char) (n : Nat) (c : Char), l.getD n c = (l.get? n).getD c from
    fun l n c => by simp [List.getD]]
  cases h : "0123456789".data.get? d with
  | none => decide
  | some a =>
    have ha : a ∈ "0123456789".data := List.get?_mem h
    have : ∀ x ∈ "0123456789".data, x ≠ '\n' := by decide
    simpa using this a ha

theorem hChar_ne_nl (d : Nat) : hChar d ≠ '\n' := by
  unfold hChar
  rw [show ∀ (l : List Char) (n : Nat) (c : Char), l.getD n c = (l.get? n).getD c from
    fun l n c => by simp [List.getD]]
  cases h : "0123456789abcdef".data.get? d with
  | none => decide
  | some a =>
    have ha : a ∈ "0123456789abcdef".data := List.get?_mem h
    have : ∀ x ∈ "0123456789abcdef".data, x ≠ '\n' := by decide
    simpa using this a ha

theorem escChar_no_nl (c : Char) : '\n' ∉ escChar c := by
  unfold escChar
  split_ifs with h1 h2 h3 h4 h5 h6
  · decide
  · decide
  · decide
  · decide
  · decide
  · intro hm
    simp only [List.mem_cons, List.not_mem_nil, or_false] at hm
    rcases hm with h | h | h | h | h | h
    · exact absurd h (by decide)
    · exact absurd h (by decide)
    · exact absurd h (by decide)
    · exact absurd h (by decide)
    · exact hChar_ne_nl _ h.symm
    · exact hChar_ne_nl _ h.symm
  · intro hm
    simp only [List.mem_cons, List.not_mem_nil, or_false] at hm
    exact h3 hm.symm

theorem escStrChars_no_nl (l : List Char) : '\n' ∉ escStrChars l := by
  induction l with
  | nil => decide
  | cons c cs ih =>
    simp only [escStrChars, List.mem_append]
    rintro (h | h)
    · exact escChar_no_nl c h
    · exact ih h

theorem natToCharsAux_no_nl (f n : Nat) : '\n' ∉ natToCharsAux f n := by
  induction f generalizing n with
  | zero => simp [natToCharsAux]
  | succ f ih =>
    unfold natToCharsAux
    split
    · simp only [List.mem_cons, List.not_mem_nil, or_false]
      intro h
      exact dChar_ne_nl _ h.symm
    · simp only [List.mem_append, List.mem_cons, List.not_mem_nil, or_false]
      rintro (h | h)
      · exact ih _ h
      · exact dChar_ne_nl _ h.symm

theorem intToChars_no_nl (n : Int) : '\n' ∉ intToChars n := by
  cases n with
  | ofNat m => exact natToCharsAux_no_nl _ _
  | negSucc m =>
    simp only [intToChars, List.mem_cons]
    rintro (h | h)
    · exact absurd h (by decide)
    · exact natToCharsAux_no_nl _ _ h

mutual

theorem dumpsChars_no_nl : ∀ v : JsonVal, '\n' ∉ dumpsChars v
  | .null => by decide
  | .bool b => by cases b <;> decide
  | .num n => intToChars_no_nl n
  | .str s => by
    intro hmem
    rw [show dumpsChars (.str s) = '"' :: (escStrChars s.data ++ ['"']) from by
      simp [dumpsChars]] at hmem
    rcases List.mem_cons.mp hmem with h | hmem2
    · exact absurd h (by decide)
    rcases List.mem_append.mp hmem2 with h | h
    · exact escStrChars_no_nl _ h
    · exact absurd h (by decide)
  | .arr xs => by
    intro hmem
    rw [show dumpsChars (.arr xs) = '[' :: (dumpsArrInner xs ++ [']']) from by
      simp [dumpsChars]] at hmem
    rcases List.mem_cons.mp hmem with h | hmem2
    · exact absurd h (by decide)
    rcases List.mem_append.mp hmem2 with h | h
    · exact dumpsArrInner_no_nl xs h
    · exact absurd h (by decide)
  | .obj kvs => by
    intro hmem
    rw [show dumpsChars (.obj kvs) = '{' :: (dumpsObjInner kvs ++ ['}']) from by
      simp [dumpsChars]] at hmem
    rcases List.mem_cons.mp hmem with h | hmem2
    · exact absurd h (by decide)
    rcases List.mem_append.mp hmem2 with h | h
    · exact dumpsObjInner_no_nl kvs h
    · exact absurd h (by decide)

theorem dumpsArrInner_no_nl : ∀ xs : List JsonVal, '\n' ∉ dumpsArrInner xs
  | [] => by decide
  | [x] => by
    intro hmem
    rw [show dumpsArrInner [x] = dumpsChars x from by simp [dumpsArrInner]] at hmem
    exact dumpsChars_no_nl x hmem
  | x :: y :: xs => by
    intro hmem
    rw [show dumpsArrInner (x :: y :: xs)
        = dumpsChars x ++ ',' :: ' ' :: dumpsArrInner (y :: xs) from by
      simp [dumpsArrInner]] at hmem
    rcases List.mem_append.mp hmem with h | h2
    · exact dumpsChars_no_nl x h
    rcases List.mem_cons.mp h2 with h | h3
    · exact absurd h (by decide)
    rcases List.mem_cons.mp h3 with h | h
    · exact absurd h (by decide)
    · exact dumpsArrInner_no_nl (y :: xs) h

theorem dumpsObjInner_no_nl : ∀ kvs : List (String × JsonVal), '\n' ∉ dumpsObjInner kvs
  | [] => by decide
  | [kv] => by
    intro hmem
    rw [show dumpsObjInner [kv]
        = '"' :: (escStrChars kv.1.data ++ '"' :: ':' :: ' ' :: dumpsChars kv.2) from by
      simp [dumpsObjInner]] at hmem
    rcases List.mem_cons.mp hmem with h | hmem2
    · exact absurd h (by decide)
    rcases List.mem_append.mp hmem2 with h | h3
    · exact escStrChars_no_nl _ h
    rcases List.mem_cons.mp h3 with h | h4
    · exact absurd h (by decide)
    rcases List.mem_cons.mp h4 with h | h5
    · exact absurd h (by decide)
    rcases List.mem_cons.mp h5 with h | h
    · exact absurd h (by decide)
    · exact dumpsChars_no_nl kv.2 h
  | kv :: kv2 :: kvs => by
    intro hmem
    rw [show dumpsObjInner (kv :: kv2 :: kvs)
        = ('"' :: (escStrChars kv.1.data ++ '"' :: ':' :: ' ' :: dumpsChars kv.2))
            ++ ',' :: ' ' :: dumpsObjInner (kv2 :: kvs) from by
      simp [dumpsObjInner]] at hmem
    rcases List.mem_append.mp hmem with hL | hR
    · rcases List.mem_cons.mp hL with h | hmem2
      · exact absurd h (by decide)
      rcases List.mem_append.mp hmem2 with h | h3
      · exact escStrChars_no_nl _ h
      rcases List.mem_cons.mp h3 with h | h4
      · exact absurd h (by decide)
      rcases List.mem_cons.mp h4 with h | h5
      · exact absurd h (by decide)
      rcases List.mem_cons.mp h5 with h | h
      · exact absurd h (by decide)
      · exact dumpsChars_no_nl kv.2 h
    rcases List.mem_cons.mp hR with h | h6
    · exact absurd h (by decide)
    rcases List.mem_cons.mp h6 with h | h
    · exact absurd h (by decide)
    · exact dumpsObjInner_no_nl (kv2 :: kvs) h

end

theorem isPyWs_btick : isPyWs btick = false := by decide

theorem pyStripList_sandwich (a : Char) (mid : List Char) (b : Char)
    (ha : isPyWs a = false) (hb : isPyWs b = false) :
    pyStripList (a :: (mid ++ [b])) = a :: (mid ++ [b]) := by
  unfold pyStripList
  rw [List.dropWhile_cons, ha]
  simp only [Bool.false_eq_true, if_false]
  rw [show (a :: (mid ++ [b])).reverse = b :: (mid.reverse ++ [a]) from by simp]
  rw [List.dropWhile_cons, hb]
  simp

theorem stripTicksLang (lang : List Char) :
    startsWithTicks (pyStripList (btick :: btick :: btick :: lang)) = true := by
  unfold pyStripList
  rw [show List.dropWhile isPyWs (btick :: btick :: btick :: lang)
      = btick :: btick :: btick :: lang from by
    simp [List.dropWhile_cons, isPyWs_btick]]
  rw [show (btick :: btick :: btick :: lang).reverse
      = lang.reverse ++ [btick, btick, btick] from by simp]
  rw [List.dropWhile_append]
  split
  · rw [show List.dropWhile isPyWs [btick, btick, btick] = [btick, btick, btick] from by decide]
    decide
  · rw [show (List.dropWhile isPyWs lang.reverse ++ [btick, btick, btick]).reverse
        = btick :: btick :: btick :: (List.dropWhile isPyWs lang.reverse).reverse from by
      simp]
    simp only [startsWithTicks, List.isPrefixOf_iff_prefix]
    rw [show btick :: btick :: btick :: (List.dropWhile isPyWs lang.reverse).reverse
        = [btick, btick, btick] ++ (List.dropWhile isPyWs lang.reverse).reverse from rfl]
    simp [List.prefix_append]

theorem splitOnNl_ne_nil (l : List Char) : splitOnNl l ≠ [] := by
  induction l with
  | nil => simp [splitOnNl]
  | cons x xs ih =>
    simp only [splitOnNl]
    split
    · simp
    · split <;> simp

theorem splitOnNl_cons_nl (b : List Char) : splitOnNl ('\n' :: b) = [] :: splitOnNl b := by
  simp only [splitOnNl]
  rcases h : splitOnNl b with _ | ⟨g, gs⟩
  · exact absurd h (splitOnNl_ne_nil b)
  · simp

theorem splitOnNl_cons_ne (x : Char) (hx : x ≠ '\n') (b : List Char) :
    splitOnNl (x :: b) = (x :: (splitOnNl b).headI) :: (splitOnNl b).tail := by
  simp only [splitOnNl]
  rcases h : splitOnNl b with _ | ⟨g, gs⟩
  · exact absurd h (splitOnNl_ne_nil b)
  · simp [hx]

theorem splitOnNl_append (a b : List Char) (ha : '\n' ∉ a) :
    splitOnNl (a ++ '\n' :: b) = a :: splitOnNl b := by
  induction a with
  | nil => simpa using splitOnNl_cons_nl b
  | cons x xs ih =>
    have hx : x ≠ '\n' := fun h => ha (h ▸ List.mem_cons_self x xs)
    have hxs : '\n' ∉ xs := fun h => ha (List.mem_cons_of_mem x h)
    rw [List.cons_append, splitOnNl_cons_ne x hx (xs ++ '\n' :: b), ih hxs]
    simp

theorem splitOnNl_no_nl (l : List Char) (h : '\n' ∉ l) : splitOnNl l = [l] := by
  induction l with
  | nil => rfl
  | cons x xs ih =>
    have hx : x ≠ '\n' := fun hh => h (hh ▸ List.mem_cons_self x xs)
    have hxs : '\n' ∉ xs := fun hh => h (List.mem_cons_of_mem x hh)
    rw [splitOnNl_cons_ne x hx xs, ih hxs]
    simp

theorem fenceScan_three (l0 l1 l2 : List Char)
    (h0 : startsWithTicks (pyStripList l0) = true)
    (h1 : startsWithTicks (pyStripList l1) = false)
    (h2 : startsWithTicks (pyStripList l2) = true) :
    fenceScan [l0, l1, l2] 0 none = (some 1, some 2) := by
  unfold fenceScan
  rw [h0]
  simp only [if_true]
  unfold fenceScan
  rw [h1]
  simp only [Bool.false_eq_true, if_false]
  unfold fenceScan
  rw [h2]
  simp

theorem startsWithTicks_cons3 (r : List Char) :
    startsWithTicks (btick :: btick :: btick :: r) = true := by
  simp [startsWithTicks, List.isPrefixOf]

theorem startsWithTicks_ne_head (c : Char) (hc : (btick == c) = false) (r : List Char) :
    startsWithTicks (c :: r) = false := by
  simp only [startsWithTicks, List.isPrefixOf, hc, Bool.false_and]

theorem defenceList_wrap (lang s : List Char)
    (hlang : '\n' ∉ lang) (hs_nl : '\n' ∉ s)
    (hs_strip : pyStripList s = s)
    (hs_ticks : startsWithTicks s = false) :
    defenceList (btick :: btick :: btick ::
        (lang ++ '\n' :: s ++ '\n' :: [btick, btick, btick])) = s := by
  have hstrip : pyStripList (btick :: btick :: btick ::
      (lang ++ '\n' :: s ++ '\n' :: [btick, btick, btick]))
      = btick :: btick :: btick :: (lang ++ '\n' :: s ++ '\n' :: [btick, btick, btick]) := by
    rw [show btick :: btick :: btick :: (lang ++ '\n' :: s ++ '\n' :: [btick, btick, btick])
        = btick :: ((btick :: btick :: (lang ++ '\n' :: s ++ '\n' :: [btick, btick])) ++ [btick])
        from by simp]
    exact pyStripList_sandwich btick _ btick isPyWs_btick isPyWs_btick
  have hna : '\n' ∉ btick :: btick :: btick :: lang := by
    intro hm
    rcases List.mem_cons.mp hm with h | hm
    · exact absurd h (by decide)
    rcases List.mem_cons.mp hm with h | hm
    · exact absurd h (by decide)
    rcases List.mem_cons.mp hm with h | hm
    · exact absurd h (by decide)
    · exact hlang hm
  have hsplit : splitOnNl (btick :: btick :: btick ::
      (lang ++ '\n' :: s ++ '\n' :: [btick, btick, btick]))
      = [btick :: btick :: btick :: lang, s, [btick, btick, btick]] := by
    rw [show btick :: btick :: btick :: (lang ++ '\n' :: s ++ '\n' :: [btick, btick, btick])
        = (btick :: btick :: btick :: lang) ++ '\n' :: (s ++ '\n' :: [btick, btick, btick])
        from by simp]
    rw [splitOnNl_append _ _ hna, splitOnNl_append _ _ hs_nl,
      splitOnNl_no_nl _ (by decide)]
  unfold defenceList
  simp only [hstrip]
  rw [startsWithTicks_cons3]
  simp only [if_true]
  rw [hsplit]
  rw [fenceScan_three _ _ _ (stripTicksLang lang)
    (by rw [hs_strip]; exact hs_ticks) (by decide)]
  exact hs_strip

theorem extract_eq_of_parse {t : String} {v : JsonVal}
    (h : json_loads (String.mk (defenceList t.data)) = some v) :
    extract_json_from_response t = v := by
  unfold extract_json_from_response
  rw [h]

theorem create_ok_fields {gen : GenClient} {st lp : String} {d : Int} {ca : String}
    {plan : PlanRecord} (h : create_study_plan gen st lp d ca = .ok plan) :
    plan.created_at = ca ∧ plan.duration_days = d ∧
    plan.progress_tracking = generate_progress_tracking_local d := by
  unfold create_study_plan at h
  rcases hA : gen.analyzeSyllabus (pyTakeChars 2000 st) with eA | rawA
  · simp only [hA] at h
    exact Except.noConfusion h
  simp only [hA] at h
  rcases hB : pyDictGet (extract_json_from_response rawA) "subjects" (.arr [])
      with eB | subjects
  · simp only [hB] at h
    exact Except.noConfusion h
  simp only [hB] at h
  rcases hC : pySliceTake 2 subjects with eC | subjects2
  · simp only [hC] at h
    exact Except.noConfusion h
  simp only [hC] at h
  rcases hD : gen.buildSchedule d (json_dumps subjects2)
      (analyze_learning_preferences_local lp).primary_learning_style with eD | rawD
  · simp only [hD] at h
    exact Except.noConfusion h
  simp only [hD] at h
  rcases hE : pySliceTake 3 subjects with eE | subjects3
  · simp only [hE] at h
    exact Except.noConfusion h
  simp only [hE] at h
  rcases hF : pyIterate subjects3 with eF | selems
  · simp only [hF] at h
    exact Except.noConfusion h
  simp only [hF] at h
  rcases hG : List.mapM (fun s => pySubscriptStr s "name") selems with eG | topics
  · simp only [hG] at h
    exact Except.noConfusion h
  simp only [hG] at h
  rcases hH : pyJoin ", " topics with eH | topicsStr
  · simp only [hH] at h
    exact Except.noConfusion h
  simp only [hH] at h
  rcases hI : gen.recommendResources topicsStr
      (analyze_learning_preferences_local lp).primary_learning_style with eI | rawI
  · simp only [hI] at h
    exact Except.noConfusion h
  simp only [hI] at h
  cases h
  exact ⟨rfl, rfl, rfl⟩

/-! ## Claim theorems -/

/-- C6: the Checkpoint Scheduler returns exactly 4 checkpoints; with
`interval = max(7, floor(duration_days / 4))` the i-th has
`day = min(duration_days, i * interval)`, label `"Review Week {i}"` and
assessment `"Quiz + practical exercise"`; `duration_days = 28` gives days
7, 14, 21, 28 and `duration_days = 10` gives the clamped 7, 10, 10, 10. -/
theorem scheduler_four_clamped_checkpoints :
    (∀ d : Int, 0 < d →
      generate_progress_tracking_local d =
        { checkpoint_schedule :=
            [⟨min d (1 * max 7 (Int.fdiv d 4)), "Review Week 1", "Quiz + practical exercise"⟩,
             ⟨min d (2 * max 7 (Int.fdiv d 4)), "Review Week 2", "Quiz + practical exercise"⟩,
             ⟨min d (3 * max 7 (Int.fdiv d 4)), "Review Week 3", "Quiz + practical exercise"⟩,
             ⟨min d (4 * max 7 (Int.fdiv d 4)), "Review Week 4", "Quiz + practical exercise"⟩]
          tracking_metrics :=
            ["Daily session completion", "Topic understanding scores",
             "Practice problem accuracy"] })
    ∧ (generate_progress_tracking_local 28).checkpoint_schedule.map Checkpoint.day
        = [7, 14, 21, 28]
    ∧ (generate_progress_tracking_local 10).checkpoint_schedule.map Checkpoint.day
        = [7, 10, 10, 10] := by
  refine ⟨fun d _ => ?_, by rfl, by rfl⟩
  show ProgressTracking.mk _ _ = _
  norm_num [generate_progress_tracking_local, List.range']
  exact ⟨by rfl, by rfl, by rfl, by rfl⟩

/-- C6 witness: the scheduler at the concrete in-range input 5. -/
theorem scheduler_four_clamped_checkpoints_witness :
    (0 : Int) < 5 ∧
      generate_progress_tracking_local 5 =
        { checkpoint_schedule :=
            [⟨min 5 (1 * max 7 (Int.fdiv 5 4)), "Review Week 1", "Quiz + practical exercise"⟩,
             ⟨min 5 (2 * max 7 (Int.fdiv 5 4)), "Review Week 2", "Quiz + practical exercise"⟩,
             ⟨min 5 (3 * max 7 (Int.fdiv 5 4)), "Review Week 3", "Quiz + practical exercise"⟩,
             ⟨min 5 (4 * max 7 (Int.fdiv 5 4)), "Review Week 4", "Quiz + practical exercise"⟩]
          tracking_metrics :=
            ["Daily session completion", "Topic understanding scores",
             "Practice problem accuracy"] } :=
  ⟨by decide, scheduler_four_clamped_checkpoints.1 5 (by decide)⟩

/-- C3: the Response Extractor is total — for every input it returns
either the value parsed from the (possibly de-fenced) text or exactly the
sentinel `{error: "Failed to parse JSON response"}`; on the non-JSON
input `"I cannot comply."` it returns the sentinel. -/
theorem extractor_total_or_sentinel :
    (∀ text : String,
      (∃ v, json_loads (String.mk (defenceList text.data)) = some v ∧
            extract_json_from_response text = v)
      ∨ extract_json_from_response text = errSentinel)
    ∧ extract_json_from_response "I cannot comply." = errSentinel := by
  refine ⟨fun text => ?_, by rfl⟩
  unfold extract_json_from_response
  cases h : json_loads (String.mk (defenceList text.data)) with
  | none => exact Or.inr rfl
  | some v => exact Or.inl ⟨v, rfl, rfl⟩

/-- C5: when the trimmed text begins with a triple-backtick fence but the
line scan finds no second fence line, de-fencing is skipped — the parser
receives the original trimmed text (still fence-prefixed), the parse
fails, and the result is the sentinel. -/
theorem extractor_unclosed_fence (text : String)
    (h1 : startsWithTicks (pyStripList text.data) = true)
    (h2 : (fenceScan (splitOnNl (pyStripList text.data)) 0 none).2 = none) :
    defenceList text.data = pyStripList text.data ∧
    extract_json_from_response text = errSentinel := by
  have hdef : defenceList text.data = pyStripList text.data := by
    unfold defenceList
    rw [if_pos h1]
    rcases hp : fenceScan (splitOnNl (pyStripList text.data)) 0 none with ⟨fst, snd⟩
    rw [hp] at h2
    simp only at h2
    subst h2
    cases fst <;> rfl
  refine ⟨hdef, ?_⟩
  unfold extract_json_from_response
  rw [hdef]
  obtain ⟨l', hl'⟩ := startsWithTicks_head h1
  rw [hl', json_loads_btick]

/-- C5 witness: a concrete input with an opening fence and no closing
fence. -/
theorem extractor_unclosed_fence_witness :
    (startsWithTicks (pyStripList ("```json\n\x7b\"a\": 1\x7d").data) = true ∧
     (fenceScan (splitOnNl (pyStripList ("```json\n\x7b\"a\": 1\x7d").data)) 0 none).2 = none) ∧
    (defenceList ("```json\n\x7b\"a\": 1\x7d").data
        = pyStripList ("```json\n\x7b\"a\": 1\x7d").data ∧
      extract_json_from_response ("```json\n\x7b\"a\": 1\x7d") = errSentinel) :=
  ⟨⟨by decide, by decide⟩,
   extractor_unclosed_fence ("```json\n\x7b\"a\": 1\x7d") (by decide) (by decide)⟩

/-- C10: a present but non-integer `study_duration_days` (e.g. `"abc"`)
makes the endpoint fail before validation with the generic status-500
error payload — for any other field values and any Generation Client,
plan generation never starts and the store is unchanged; an absent field
behaves exactly as the field set to the integer 30. -/
theorem duration_field_parse_and_default :
    (∀ (store : Store) (data : ReqData) (gen : GenClient) (ca : String) (ts : Int),
      data.study_duration_days = some (.str "abc") →
      generate_plan store data gen ca ts =
        (store, ⟨500, errBody "invalid literal for int() with base 10: abc"⟩))
    ∧ (∀ (store : Store) (data : ReqData) (gen : GenClient) (ca : String) (ts : Int),
      data.study_duration_days = none →
      generate_plan store data gen ca ts =
        generate_plan store
          { data with study_duration_days := some (.num 30) } gen ca ts) := by
  constructor
  · intro store data gen ca ts h
    unfold generate_plan
    rw [h]
    rfl
  · intro store data gen ca ts h
    unfold generate_plan
    rw [h]
    rfl

/-- C10 witness: concrete request bodies for both halves. -/
theorem duration_field_parse_and_default_witness :
    ((⟨some "", some "P", some (.str "abc")⟩ : ReqData).study_duration_days
        = some (.str "abc") ∧
      generate_plan [] (⟨some "", some "P", some (.str "abc")⟩ : ReqData) genConst "T" 0 =
        ([], ⟨500, errBody "invalid literal for int() with base 10: abc"⟩)) ∧
    ((⟨some "S", some "P", none⟩ : ReqData).study_duration_days = none ∧
      generate_plan [] (⟨some "S", some "P", none⟩ : ReqData) genConst "T" 0 =
        generate_plan []
          { (⟨some "S", some "P", none⟩ : ReqData) with
              study_duration_days := some (.num 30) } genConst "T" 0) :=
  ⟨⟨rfl, duration_field_parse_and_default.1 [] _ genConst "T" 0 rfl⟩,
   ⟨rfl, duration_field_parse_and_default.2 [] _ genConst "T" 0 rfl⟩⟩

/-- C2: if plan generation raises (any exception inside the orchestrator,
e.g. a Generation Client invocation failure, which the orchestrator
propagates), the boundary stores nothing — the store is returned
unchanged — and answers with the status-500 `{error}` payload. -/
theorem generation_exception_is_atomic :
    (∀ (store : Store) (data : ReqData) (gen : GenClient) (ca : String) (ts : Int)
        (d : Int) (e : String),
      pyStrip (data.syllabus_text.getD "") ≠ "" →
      pyStrip (data.learning_preferences.getD "") ≠ "" →
      pyInt (data.study_duration_days.getD (.num 30)) = .ok d →
      create_study_plan gen (pyStrip (data.syllabus_text.getD ""))
        (pyStrip (data.learning_preferences.getD "")) d ca = .error e →
      generate_plan store data gen ca ts = (store, ⟨500, errBody e⟩))
    ∧ (∀ (gen : GenClient) (st lp : String) (d : Int) (ca e : String),
      gen.analyzeSyllabus (pyTakeChars 2000 st) = .error e →
      create_study_plan gen st lp d ca = .error e) := by
  constructor
  · intro store data gen ca ts d e h1 h2 hd herr
    unfold generate_plan
    rw [hd]
    simp only [if_neg h1, if_neg h2, herr]
  · intro gen st lp d ca e h
    unfold create_study_plan
    rw [h]

/-- C2 witness: a Generation Client whose first invocation raises
`"boom"`; the error propagates and the boundary answers 500 with an
unchanged store. -/
theorem generation_exception_is_atomic_witness :
    (pyStrip ((some "S" : Option String).getD "") ≠ "" ∧
     pyStrip ((some "P" : Option String).getD "") ≠ "" ∧
     pyInt ((none : Option JsonVal).getD (.num 30)) = .ok 30 ∧
     create_study_plan ⟨fun _ => .error "boom", fun _ _ _ => .ok "x", fun _ _ => .ok "x"⟩
        (pyStrip ((some "S" : Option String).getD ""))
        (pyStrip ((some "P" : Option String).getD "")) 30 "T" = .error "boom") ∧
    generate_plan [] (⟨some "S", some "P", none⟩ : ReqData)
        ⟨fun _ => .error "boom", fun _ _ _ => .ok "x", fun _ _ => .ok "x"⟩ "T" 0 =
      ([], ⟨500, errBody "boom"⟩) :=
  ⟨⟨by decide, by decide, rfl, rfl⟩,
   generation_exception_is_atomic.1 [] (⟨some "S", some "P", none⟩ : ReqData)
     ⟨fun _ => .error "boom", fun _ _ _ => .ok "x", fun _ _ => .ok "x"⟩ "T" 0 30 "boom"
     (by decide) (by decide) rfl rfl⟩

/-- C1: when the syllabus-analysis extraction yields the sentinel while
the schedule and resource extractions parse successfully, the pipeline
does not abort — steps 3 and 4 still run (their parsed values land in
the record), the plan record is assembled with `syllabus_analysis` equal
to the error marker and all other fields well-formed, and it is stored
under the generated plan identifier with a 200 success response. -/
theorem soft_fail_syllabus_extraction (store : Store) (data : ReqData) (gen : GenClient)
    (ca : String) (ts d : Int) (t2 t3 t4 : String) (v3 v4 : JsonVal)
    (h1 : pyStrip (data.syllabus_text.getD "") ≠ "")
    (h2 : pyStrip (data.learning_preferences.getD "") ≠ "")
    (hd : pyInt (data.study_duration_days.getD (.num 30)) = .ok d)
    (hg2 : gen.analyzeSyllabus (pyTakeChars 2000 (pyStrip (data.syllabus_text.getD "")))
        = .ok t2)
    (hse : extract_json_from_response t2 = errSentinel)
    (hg3 : gen.buildSchedule d (json_dumps (.arr []))
        (analyze_learning_preferences_local
          (pyStrip (data.learning_preferences.getD ""))).primary_learning_style = .ok t3)
    (h3ok : json_loads (String.mk (defenceList t3.data)) = some v3)
    (hg4 : gen.recommendResources ""
        (analyze_learning_preferences_local
          (pyStrip (data.learning_preferences.getD ""))).primary_learning_style = .ok t4)
    (h4ok : json_loads (String.mk (defenceList t4.data)) = some v4) :
    generate_plan store data gen ca ts =
      (storeSet store ("plan_" ++ pyStr ts)
        { created_at := ca
          duration_days := d
          syllabus_analysis := errSentinel
          learning_analysis :=
            analyze_learning_preferences_local (pyStrip (data.learning_preferences.getD ""))
          schedule := v3
          resources := v4
          progress_tracking := generate_progress_tracking_local d },
       ⟨200, successBody ("plan_" ++ pyStr ts)
          { created_at := ca
            duration_days := d
            syllabus_analysis := errSentinel
            learning_analysis :=
              analyze_learning_preferences_local (pyStrip (data.learning_preferences.getD ""))
            schedule := v3
            resources := v4
            progress_tracking := generate_progress_tracking_local d }
          (.str "N/A")⟩) := by
  have hc : create_study_plan gen (pyStrip (data.syllabus_text.getD ""))
      (pyStrip (data.learning_preferences.getD "")) d ca =
      .ok { created_at := ca
            duration_days := d
            syllabus_analysis := errSentinel
            learning_analysis :=
              analyze_learning_preferences_local (pyStrip (data.learning_preferences.getD ""))
            schedule := v3
            resources := v4
            progress_tracking := generate_progress_tracking_local d } := by
    unfold create_study_plan
    rw [hg2]
    simp only [hse,
      show pyDictGet errSentinel "subjects" (.arr []) = .ok (.arr []) from rfl,
      show pySliceTake 2 (.arr []) = .ok (.arr ([] : List JsonVal)) from rfl,
      show pySliceTake 3 (.arr []) = .ok (.arr ([] : List JsonVal)) from rfl, hg3,
      extract_eq_of_parse h3ok,
      show pyIterate (.arr []) = .ok ([] : List JsonVal) from rfl,
      show List.mapM (fun s => pySubscriptStr s "name") ([] : List JsonVal)
          = .ok ([] : List JsonVal) from rfl,
      show pyJoin ", " [] = .ok "" from rfl, hg4, extract_eq_of_parse h4ok]
  unfold generate_plan
  rw [hd]
  simp only [if_neg h1, if_neg h2, hc]
  rfl

/-- C1 witness: a syllabus step answering non-JSON while the schedule
and resource steps answer well-formed fenced-free JSON. -/
theorem soft_fail_syllabus_extraction_witness :
    (pyStrip ((some "Algebra" : Option String).getD "") ≠ "" ∧
     pyStrip ((some "visual" : Option String).getD "") ≠ "" ∧
     extract_json_from_response "I cannot comply." = errSentinel ∧
     json_loads (String.mk (defenceList ("\x7b\"schedule\": []\x7d" : String).data))
        = some (.obj [("schedule", .arr [])]) ∧
     json_loads (String.mk (defenceList ("\x7b\"resource_recommendations\": []\x7d" : String).data))
        = some (.obj [("resource_recommendations", .arr [])])) ∧
    generate_plan [] (⟨some "Algebra", some "visual", none⟩ : ReqData)
        ⟨fun _ => .ok "I cannot comply.",
         fun _ _ _ => .ok "\x7b\"schedule\": []\x7d",
         fun _ _ => .ok "\x7b\"resource_recommendations\": []\x7d"⟩ "T" 9 =
      (storeSet [] ("plan_" ++ pyStr 9)
        { created_at := "T"
          duration_days := 30
          syllabus_analysis := errSentinel
          learning_analysis :=
            analyze_learning_preferences_local
              (pyStrip ((⟨some "Algebra", some "visual", none⟩ : ReqData).learning_preferences.getD ""))
          schedule := .obj [("schedule", .arr [])]
          resources := .obj [("resource_recommendations", .arr [])]
          progress_tracking := generate_progress_tracking_local 30 },
       ⟨200, successBody ("plan_" ++ pyStr 9)
          { created_at := "T"
            duration_days := 30
            syllabus_analysis := errSentinel
            learning_analysis :=
              analyze_learning_preferences_local
                (pyStrip ((⟨some "Algebra", some "visual", none⟩ : ReqData).learning_preferences.getD ""))
            schedule := .obj [("schedule", .arr [])]
            resources := .obj [("resource_recommendations", .arr [])]
            progress_tracking := generate_progress_tracking_local 30 }
          (.str "N/A")⟩) :=
  ⟨⟨by decide, by decide, rfl, rfl, rfl⟩,
   soft_fail_syllabus_extraction [] (⟨some "Algebra", some "visual", none⟩ : ReqData)
     ⟨fun _ => .ok "I cannot comply.",
      fun _ _ _ => .ok "\x7b\"schedule\": []\x7d",
      fun _ _ => .ok "\x7b\"resource_recommendations\": []\x7d"⟩ "T" 9 30
     "I cannot comply." "\x7b\"schedule\": []\x7d" "\x7b\"resource_recommendations\": []\x7d"
     (.obj [("schedule", .arr [])]) (.obj [("resource_recommendations", .arr [])])
     (by decide) (by decide) rfl rfl rfl rfl rfl rfl rfl⟩

/-- C8 counterexample: a request with `study_duration_days = -5` and
non-empty text fields passes the boundary's validation, reaches the
Checkpoint Scheduler (whose clamped output `[-5, -5, -5, -5]` lands in
the record), and produces a stored record with `duration_days = -5` and
a 200 success response — refuting that non-positive durations are
guarded at the boundary. -/
theorem no_duration_guard_counterexample :
    (generate_plan [] (⟨some "S", some "P", some (.num (-5))⟩ : ReqData)
        genConst "T" 0).2.status = 200 ∧
    (generate_plan [] (⟨some "S", some "P", some (.num (-5))⟩ : ReqData)
        genConst "T" 0).1.map (fun p => (p.1, p.2.duration_days)) = [("plan_0", -5)] ∧
    (generate_plan [] (⟨some "S", some "P", some (.num (-5))⟩ : ReqData)
        genConst "T" 0).1.map
        (fun p => p.2.progress_tracking.checkpoint_schedule.map Checkpoint.day)
      = [[-5, -5, -5, -5]] :=
  ⟨rfl, rfl, rfl⟩

/-- C8 (amended): the boundary validates only the two text fields — a
request whose duration parses to any integer `d ≤ 0` flows through: the
orchestrator runs with that `d`, the Checkpoint Scheduler is invoked on
it, and on success the stored record carries the non-positive
`duration_days = d`. -/
theorem no_duration_guard_at_boundary (store : Store) (data : ReqData) (gen : GenClient)
    (ca : String) (ts d : Int) (plan : PlanRecord)
    (h1 : pyStrip (data.syllabus_text.getD "") ≠ "")
    (h2 : pyStrip (data.learning_preferences.getD "") ≠ "")
    (hd : pyInt (data.study_duration_days.getD (.num 30)) = .ok d)
    (_hneg : d ≤ 0)
    (hc : create_study_plan gen (pyStrip (data.syllabus_text.getD ""))
        (pyStrip (data.learning_preferences.getD "")) d ca = .ok plan) :
    plan.duration_days = d ∧
    plan.progress_tracking = generate_progress_tracking_local d ∧
    (generate_plan store data gen ca ts).1 = storeSet store ("plan_" ++ pyStr ts) plan := by
  obtain ⟨-, hdur, hprog⟩ := create_ok_fields hc
  refine ⟨hdur, hprog, ?_⟩
  unfold generate_plan
  rw [hd]
  simp only [if_neg h1, if_neg h2, hc]
  split <;> rfl

/-- C8 witness: the amended theorem at duration -5. -/
theorem no_duration_guard_at_boundary_witness :
    ((-5 : Int) ≤ 0 ∧
      create_study_plan genConst
        (pyStrip (((⟨some "S", some "P", some (.num (-5))⟩ : ReqData)).syllabus_text.getD ""))
        (pyStrip (((⟨some "S", some "P", some (.num (-5))⟩ : ReqData)).learning_preferences.getD ""))
        (-5) "T"
        = .ok ⟨"T", -5, errSentinel, analyze_learning_preferences_local "P",
               errSentinel, errSentinel, generate_progress_tracking_local (-5)⟩) ∧
    ((⟨"T", -5, errSentinel, analyze_learning_preferences_local "P",
        errSentinel, errSentinel, generate_progress_tracking_local (-5)⟩ :
          PlanRecord).duration_days = -5 ∧
      (⟨"T", -5, errSentinel, analyze_learning_preferences_local "P",
        errSentinel, errSentinel, generate_progress_tracking_local (-5)⟩ :
          PlanRecord).progress_tracking = generate_progress_tracking_local (-5) ∧
      (generate_plan [] (⟨some "S", some "P", some (.num (-5))⟩ : ReqData)
          genConst "T" 0).1 =
        storeSet [] ("plan_" ++ pyStr 0)
          ⟨"T", -5, errSentinel, analyze_learning_preferences_local "P",
           errSentinel, errSentinel, generate_progress_tracking_local (-5)⟩) :=
  ⟨⟨by decide, rfl⟩,
   no_duration_guard_at_boundary [] (⟨some "S", some "P", some (.num (-5))⟩ : ReqData)
     genConst "T" 0 (-5)
     ⟨"T", -5, errSentinel, analyze_learning_preferences_local "P",
      errSentinel, errSentinel, generate_progress_tracking_local (-5)⟩
     (by decide) (by decide) rfl (by decide) rfl⟩

/-- C9 counterexample: two successful plan-generation requests whose
second-granularity timestamps coincide (`ts = 7`) are both answered with
status 200 but receive the same identifier `"plan_7"`; after the second
request the store still holds a single record under that key, now with
the second request's `created_at` — the first record was silently
overwritten, refuting insert-once-by-generated-key. -/
theorem plan_id_collision_counterexample :
    (generate_plan [] reqSP genConst "CA" 7).2.status = 200 ∧
    (generate_plan (generate_plan [] reqSP genConst "CA" 7).1
        reqSP genConst "CB" 7).2.status = 200 ∧
    (generate_plan [] reqSP genConst "CA" 7).1.map (fun p => (p.1, p.2.created_at))
      = [("plan_7", "CA")] ∧
    (generate_plan (generate_plan [] reqSP genConst "CA" 7).1
        reqSP genConst "CB" 7).1.map (fun p => (p.1, p.2.created_at))
      = [("plan_7", "CB")] :=
  ⟨rfl, rfl, rfl, rfl⟩

/-- C9 (amended): the store is insert-once only when the generated key
`plan_<ts>` is not already present — in that case a successful request
appends its record, leaving every previously stored record untouched;
two successful requests in the same timestamp second share one
identifier and the second silently overwrites the first. -/
theorem store_insert_when_key_fresh (store : Store) (data : ReqData) (gen : GenClient)
    (ca : String) (ts : Int) (d : Int) (plan : PlanRecord)
    (h1 : pyStrip (data.syllabus_text.getD "") ≠ "")
    (h2 : pyStrip (data.learning_preferences.getD "") ≠ "")
    (hd : pyInt (data.study_duration_days.getD (.num 30)) = .ok d)
    (hc : create_study_plan gen (pyStrip (data.syllabus_text.getD ""))
        (pyStrip (data.learning_preferences.getD "")) d ca = .ok plan)
    (hfresh : store.any (fun p => p.1 == "plan_" ++ pyStr ts) = false) :
    (generate_plan store data gen ca ts).1 = store ++ [("plan_" ++ pyStr ts, plan)] := by
  have hs : storeSet store ("plan_" ++ pyStr ts) plan
      = store ++ [("plan_" ++ pyStr ts, plan)] := by
    unfold storeSet
    rw [hfresh]
    rfl
  unfold generate_plan
  rw [hd]
  simp only [if_neg h1, if_neg h2, hc]
  split <;> exact hs

/-- C9 witness: a fresh-key request appends to the empty store. -/
theorem store_insert_when_key_fresh_witness :
    (([] : Store).any (fun p => p.1 == "plan_" ++ pyStr 7) = false ∧
      create_study_plan genConst (pyStrip (reqSP.syllabus_text.getD ""))
        (pyStrip (reqSP.learning_preferences.getD "")) 30 "CA"
        = .ok ⟨"CA", 30, errSentinel, analyze_learning_preferences_local "P",
               errSentinel, errSentinel, generate_progress_tracking_local 30⟩) ∧
    (generate_plan [] reqSP genConst "CA" 7).1 =
      [] ++ [("plan_" ++ pyStr 7,
        ⟨"CA", 30, errSentinel, analyze_learning_preferences_local "P",
         errSentinel, errSentinel, generate_progress_tracking_local 30⟩)] :=
  ⟨⟨rfl, rfl⟩,
   store_insert_when_key_fresh [] reqSP genConst "CA" 7 30
     ⟨"CA", 30, errSentinel, analyze_learning_preferences_local "P",
      errSentinel, errSentinel, generate_progress_tracking_local 30⟩
     (by decide) (by decide) rfl rfl rfl⟩

/-- C7: the Preference Classifier lower-cases the text and picks the
first match in the fixed priority order visual > auditory ("audio" or
"auditory") > kinesthetic ("kinesthetic" or "hands") > reading-writing;
the output always carries the chosen category's fixed 4-method list; and
any text containing "visual" in any letter case classifies as visual. -/
theorem classifier_priority_first_match :
    (∀ t : String,
      (strContains (pyLower t) "visual" = true →
        (analyze_learning_preferences_local t).primary_learning_style = "visual") ∧
      (strContains (pyLower t) "visual" = false →
        (strContains (pyLower t) "audio" || strContains (pyLower t) "auditory") = true →
        (analyze_learning_preferences_local t).primary_learning_style = "auditory") ∧
      (strContains (pyLower t) "visual" = false →
        (strContains (pyLower t) "audio" || strContains (pyLower t) "auditory") = false →
        (strContains (pyLower t) "kinesthetic" || strContains (pyLower t) "hands") = true →
        (analyze_learning_preferences_local t).primary_learning_style = "kinesthetic") ∧
      (strContains (pyLower t) "visual" = false →
        (strContains (pyLower t) "audio" || strContains (pyLower t) "auditory") = false →
        (strContains (pyLower t) "kinesthetic" || strContains (pyLower t) "hands") = false →
        (analyze_learning_preferences_local t).primary_learning_style = "reading-writing") ∧
      ((analyze_learning_preferences_local t).recommended_study_methods
          = methodsFor (analyze_learning_preferences_local t).primary_learning_style ∧
        (analyze_learning_preferences_local t).recommended_study_methods.length = 4)) ∧
    (∀ t w : String, w.data.map Char.toLower = "visual".data → w.data <:+: t.data →
      (analyze_learning_preferences_local t).primary_learning_style = "visual") := by
  have hb : ∀ t : String,
      (strContains (pyLower t) "visual" = true →
        (analyze_learning_preferences_local t).primary_learning_style = "visual") ∧
      (strContains (pyLower t) "visual" = false →
        (strContains (pyLower t) "audio" || strContains (pyLower t) "auditory") = true →
        (analyze_learning_preferences_local t).primary_learning_style = "auditory") ∧
      (strContains (pyLower t) "visual" = false →
        (strContains (pyLower t) "audio" || strContains (pyLower t) "auditory") = false →
        (strContains (pyLower t) "kinesthetic" || strContains (pyLower t) "hands") = true →
        (analyze_learning_preferences_local t).primary_learning_style = "kinesthetic") ∧
      (strContains (pyLower t) "visual" = false →
        (strContains (pyLower t) "audio" || strContains (pyLower t) "auditory") = false →
        (strContains (pyLower t) "kinesthetic" || strContains (pyLower t) "hands") = false →
        (analyze_learning_preferences_local t).primary_learning_style = "reading-writing") ∧
      ((analyze_learning_preferences_local t).recommended_study_methods
          = methodsFor (analyze_learning_preferences_local t).primary_learning_style ∧
        (analyze_learning_preferences_local t).recommended_study_methods.length = 4) := by
    intro t
    refine ⟨fun h1 => ?_, fun h1 h2 => ?_, fun h1 h2 h3 => ?_, fun h1 h2 h3 => ?_, rfl, ?_⟩
    · simp [analyze_learning_preferences_local, h1]
    · simp [analyze_learning_preferences_local, h1, h2]
    · simp [analyze_learning_preferences_local, h1, h2, h3]
    · simp [analyze_learning_preferences_local, h1, h2, h3]
    · exact methodsFor_length _
  refine ⟨hb, fun t w hmap hinf => ?_⟩
  apply (hb t).1
  apply strContains_of_infix
  show ("visual" : String).data <:+: (pyLower t).data
  rw [show (pyLower t).data = t.data.map Char.toLower from rfl, ← hmap]
  exact hinf.map Char.toLower

/-- C7 witness: a mixed-case occurrence of "visual" (alongside an
auditory keyword) classifies as visual. -/
theorem classifier_priority_first_match_witness :
    ("VisUal".data.map Char.toLower = "visual".data ∧
      "VisUal".data <:+: "I like VisUal and audio stuff".data) ∧
    (analyze_learning_preferences_local "I like VisUal and audio stuff").primary_learning_style
      = "visual" :=
  ⟨⟨by decide, by decide⟩,
   classifier_priority_first_match.2 "I like VisUal and audio stuff" "VisUal"
     (by decide) (by decide)⟩

/-- C4: round-trip — for every JSON object value, running the Response
Extractor on its `json.dumps` serialization wrapped in triple-backtick
fences (with an arbitrary newline-free language tag on the opening
fence) gives the same result as running it on the bare serialization; in
particular, whenever the bare serialization parses to `v`, the fenced
input extracts to exactly `v`. -/
theorem fenced_json_roundtrip (kvs : List (String × JsonVal)) (lang : String)
    (hlang : '\n' ∉ lang.data) :
    extract_json_from_response
        ("```" ++ lang ++ "\n" ++ json_dumps (.obj kvs) ++ "\n```")
      = extract_json_from_response (json_dumps (.obj kvs)) ∧
    ∀ v, json_loads (json_dumps (.obj kvs)) = some v →
      extract_json_from_response
          ("```" ++ lang ++ "\n" ++ json_dumps (.obj kvs) ++ "\n```") = v := by
  have hshape : dumpsChars (.obj kvs) = '{' :: (dumpsObjInner kvs ++ ['}']) := by
    simp [dumpsChars]
  have hstripobj : pyStripList (dumpsChars (.obj kvs)) = dumpsChars (.obj kvs) := by
    rw [hshape]
    exact pyStripList_sandwich '{' _ '}' (by decide) (by decide)
  have hticksobj : startsWithTicks (dumpsChars (.obj kvs)) = false := by
    rw [hshape]
    exact startsWithTicks_ne_head '{' (by decide) _
  have hdata : ("```" ++ lang ++ "\n" ++ json_dumps (.obj kvs) ++ "\n```").data
      = btick :: btick :: btick ::
          (lang.data ++ '\n' :: dumpsChars (.obj kvs) ++ '\n' :: [btick, btick, btick]) := by
    simp only [String.data_append]
    rw [show (json_dumps (.obj kvs)).data = dumpsChars (.obj kvs) from rfl]
    simp [btick]
  have hwrap : defenceList
      (("```" ++ lang ++ "\n" ++ json_dumps (.obj kvs) ++ "\n```").data)
      = dumpsChars (.obj kvs) := by
    rw [hdata]
    exact defenceList_wrap lang.data (dumpsChars (.obj kvs)) hlang
      (dumpsChars_no_nl _) hstripobj hticksobj
  have hplain : defenceList ((json_dumps (.obj kvs)).data) = dumpsChars (.obj kvs) := by
    unfold defenceList
    rw [show (json_dumps (.obj kvs)).data = dumpsChars (.obj kvs) from rfl]
    simp only [hstripobj, hticksobj, Bool.false_eq_true, if_false]
  refine ⟨?_, ?_⟩
  · unfold extract_json_from_response
    rw [hwrap, hplain]
  · intro v hv
    unfold extract_json_from_response
    rw [hwrap]
    rw [show String.mk (dumpsChars (.obj kvs)) = json_dumps (.obj kvs) from rfl, hv]

/-- C4 witness: the object `{"a": 1}` fenced with a "json" language tag. -/
theorem fenced_json_roundtrip_witness :
    ('\n' ∉ ("json" : String).data) ∧
    (extract_json_from_response
        ("```" ++ "json" ++ "\n" ++ json_dumps (.obj [("a", .num 1)]) ++ "\n```")
      = extract_json_from_response (json_dumps (.obj [("a", .num 1)])) ∧
    ∀ v, json_loads (json_dumps (.obj [("a", .num 1)])) = some v →
      extract_json_from_response
          ("```" ++ "json" ++ "\n" ++ json_dumps (.obj [("a", .num 1)]) ++ "\n```") = v) :=
  ⟨by decide, fenced_json_roundtrip [("a", .num 1)] "json" (by decide)⟩




